import Mathlib

/-!
Shallow embedding of `src/main.rs` of the krader repository: the application
state (`Krader`), its message type, the `update` entry point, column
construction and cell extraction.  `f32`/`f64` values are modelled as
rationals; effectful library calls (`scrollable::scroll_to`, spawned fetch
tasks, `eprintln!`) are modelled as an explicit list of emitted commands.
-/

/-- Absolute scroll offset of one scrollable pane
(`iced::widget::scrollable::AbsoluteOffset`): horizontal and vertical parts. -/
structure AbsoluteOffset where
  x : ℚ
  y : ℚ
deriving DecidableEq

/-- One row of the watch list (`WatchItem` in `src/main.rs`).  Every field is
optional, exactly as deserialized from the exchange response.  Note: the
struct has no error-message field. -/
structure WatchItem where
  symbol : Option String
  last : Option ℚ
  last_time : Option String
  tag : Option String
  pair : Option String
  mark_price : Option ℚ
  bid : Option ℚ
  bid_size : Option ℚ
  ask : Option ℚ
  ask_size : Option ℚ
  vol24h : Option ℚ
  volume_quote : Option ℚ
  open_interest : Option ℚ
  open24h : Option ℚ
  high24h : Option ℚ
  low24h : Option ℚ
  last_size : Option ℚ
  funding_rate : Option ℚ
  funding_rate_prediction : Option ℚ
  suspended : Option Bool
  index_price : Option ℚ
  post_only : Option Bool
  change24h : Option ℚ
deriving DecidableEq

/-- The enumerated column kinds (`ColumnKind` in `src/main.rs`). -/
inductive ColumnKind where
  | Symbol
  | Last
  | LastTime
  | Tag
  | Pair
  | MarkPrice
  | Bid
  | BidSize
  | Ask
  | AskSize
  | Vol24h
  | VolumeQuote
  | OpenInterest
  | Open24h
  | High24h
  | Low24h
  | LastSize
  | FundingRate
  | FundingRatePrediction
  | Suspended
  | IndexPrice
  | PostOnly
  | Change24h
deriving DecidableEq

/-- A column descriptor (`WatchlistColumn` in `src/main.rs`): kind, current
width, and the optional pending resize offset. -/
structure WatchlistColumn where
  kind : ColumnKind
  width : ℚ
  resize_offset : Option ℚ
deriving DecidableEq

/-- `WatchlistColumn::new`: the initial width is chosen by a per-kind match
(every arm yields `100.0`), and `resize_offset` starts empty. -/
def WatchlistColumn.new (kind : ColumnKind) : WatchlistColumn :=
  let width : ℚ :=
    match kind with
    | .Pair => 100
    | .MarkPrice => 100
    | .Vol24h => 100
    | .VolumeQuote => 100
    | .Symbol => 100
    | .Last => 100
    | .LastTime => 100
    | .Tag => 100
    | .Bid => 100
    | .BidSize => 100
    | .Ask => 100
    | .AskSize => 100
    | .OpenInterest => 100
    | .Open24h => 100
    | .High24h => 100
    | .Low24h => 100
    | .LastSize => 100
    | .FundingRate => 100
    | .FundingRatePrediction => 100
    | .Suspended => 100
    | .IndexPrice => 100
    | .PostOnly => 100
    | .Change24h => 100
  { kind := kind, width := width, resize_offset := none }

/-- The messages handled by `Krader::update`.  `DataFetched` carries
`Result<Vec<WatchItem>, String>`, modelled as `Except String (List WatchItem)`. -/
inductive Message where
  | SyncHeader (offset : AbsoluteOffset)
  | Resizing (index : Nat) (offset : ℚ)
  | Resized
  | FetchData
  | DataFetched (result : Except String (List WatchItem))

/-- The effects `Krader::update` emits alongside the new state: the
`scrollable::scroll_to` tasks (identified by the target pane id), the spawned
`fetch_data` task of `Message::FetchData`, and the `eprintln!` of the error
branch. -/
inductive Command where
  | scrollTo (target : Nat) (offset : AbsoluteOffset)
  | performFetch
  | eprintln (msg : String)
deriving DecidableEq

/-- The application state (`struct Krader`).  The three `scrollable::Id`
values are modelled as natural numbers; `Id::unique()` in `Krader::new` makes
them pairwise distinct. -/
structure Krader where
  columns : List WatchlistColumn
  watch_list : List WatchItem
  header : Nat
  body : Nat
  footer : Nat
  resize_columns_enabled : Bool
  footer_enabled : Bool
  min_width_enabled : Bool
deriving DecidableEq

/-- `Krader::new`: the 23 columns in source order, an empty watch list, three
distinct pane ids, all feature flags on, plus the initial fetch task. -/
def Krader.new : Krader × List Command :=
  ({ columns := [
       WatchlistColumn.new .Pair,
       WatchlistColumn.new .MarkPrice,
       WatchlistColumn.new .Vol24h,
       WatchlistColumn.new .VolumeQuote,
       WatchlistColumn.new .Symbol,
       WatchlistColumn.new .Last,
       WatchlistColumn.new .LastTime,
       WatchlistColumn.new .Tag,
       WatchlistColumn.new .Bid,
       WatchlistColumn.new .BidSize,
       WatchlistColumn.new .Ask,
       WatchlistColumn.new .AskSize,
       WatchlistColumn.new .OpenInterest,
       WatchlistColumn.new .Open24h,
       WatchlistColumn.new .High24h,
       WatchlistColumn.new .Low24h,
       WatchlistColumn.new .LastSize,
       WatchlistColumn.new .FundingRate,
       WatchlistColumn.new .FundingRatePrediction,
       WatchlistColumn.new .Suspended,
       WatchlistColumn.new .IndexPrice,
       WatchlistColumn.new .PostOnly,
       WatchlistColumn.new .Change24h],
     watch_list := [],
     header := 0,
     body := 1,
     footer := 2,
     resize_columns_enabled := true,
     footer_enabled := true,
     min_width_enabled := true },
   [Command.performFetch])

/-- The response of the tickers endpoint (`struct TickersResponse`). -/
structure TickersResponse where
  tickers : List WatchItem
deriving DecidableEq

/-- `fetch_data`, its pure part: given the parsed `TickersResponse` (network
transport and JSON decoding are the external Fetch Client collaborator), it
returns `resp.tickers` unchanged. -/
def fetch_data (resp : TickersResponse) : List WatchItem :=
  resp.tickers

/-- `Krader::update`: the single state-mutation entry point, returning the new
state and the emitted commands. -/
def Krader.update (s : Krader) (message : Message) : Krader × List Command :=
  match message with
  | .SyncHeader offset =>
      (s, [Command.scrollTo s.header offset, Command.scrollTo s.footer offset])
  | .Resizing index offset =>
      (match s.columns[index]? with
       | some c => { s with columns := s.columns.set index { c with resize_offset := some offset } }
       | none => s,
       [])
  | .Resized =>
      ({ s with columns := s.columns.map fun c =>
          match c.resize_offset with
          | some offset => { c with width := c.width + offset, resize_offset := none }
          | none => c },
       [])
  | .FetchData => (s, [Command.performFetch])
  | .DataFetched (.ok watch_list) => ({ s with watch_list := watch_list }, [])
  | .DataFetched (.error e) => (s, [Command.eprintln e])

/-- Models Rust's `{}` formatting / `.to_string()` of an `f64` (from std,
outside this repository).  Faithful on integral values, the only ones the
theorems below evaluate: Rust prints `0.0` as `"0"` and `2.0` as `"2"`.  A
non-integral value is printed as `"num/den"`, a stand-in never reached here. -/
def displayF64 (q : ℚ) : String :=
  if q.den = 1 then toString q.num else toString q.num ++ "/" ++ toString q.den

/-- Models Rust's `{}` formatting of a `bool`. -/
def displayBool (b : Bool) : String :=
  if b then "true" else "false"

/-- `WatchlistColumn::cell`, its displayed text: the per-kind field extraction
from a row.  `unwrap_or("N/A")` / `map_or("N/A", format)` becomes `getD` /
`map` + `getD`; `unwrap_or_default().to_string()` becomes
`displayF64 (field.getD 0)`. -/
def WatchlistColumn.cell (kind : ColumnKind) (row : WatchItem) : String :=
  match kind with
  | .Symbol => row.symbol.getD "N/A"
  | .Last => displayF64 (row.last.getD 0)
  | .LastTime => row.last_time.getD "N/A"
  | .Tag => row.tag.getD "N/A"
  | .Pair => row.pair.getD "N/A"
  | .MarkPrice => (row.mark_price.map displayF64).getD "N/A"
  | .Bid => (row.bid.map displayF64).getD "N/A"
  | .BidSize => (row.bid_size.map displayF64).getD "N/A"
  | .Ask => (row.ask.map displayF64).getD "N/A"
  | .AskSize => (row.ask_size.map displayF64).getD "N/A"
  | .Vol24h => (row.vol24h.map displayF64).getD "N/A"
  | .VolumeQuote => displayF64 (row.volume_quote.getD 0)
  | .OpenInterest => displayF64 (row.open_interest.getD 0)
  | .Open24h => (row.open24h.map displayF64).getD "N/A"
  | .High24h => (row.high24h.map displayF64).getD "N/A"
  | .Low24h => (row.low24h.map displayF64).getD "N/A"
  | .LastSize => (row.last_size.map displayF64).getD "N/A"
  | .FundingRate => displayF64 (row.funding_rate.getD 0)
  | .FundingRatePrediction => displayF64 (row.funding_rate_prediction.getD 0)
  | .Suspended => (row.suspended.map displayBool).getD "N/A"
  | .IndexPrice => (row.index_price.map displayF64).getD "N/A"
  | .PostOnly => (row.post_only.map displayBool).getD "N/A"
  | .Change24h => (row.change24h.map displayF64).getD "N/A"

/-- The scroll offsets of the three panes of the table. -/
structure PaneState where
  headerOffset : AbsoluteOffset
  bodyOffset : AbsoluteOffset
  footerOffset : AbsoluteOffset
deriving DecidableEq

/-- Effect of one emitted command on the pane offsets.  `scrollTo` models
`scrollable::scroll_to(id, offset)`: the pane whose id matches the target is
scrolled to the given absolute offset; the other commands do not touch panes. -/
def applyCommand (k : Krader) (p : PaneState) (c : Command) : PaneState :=
  match c with
  | .scrollTo target offset =>
      if target = k.header then { p with headerOffset := offset }
      else if target = k.body then { p with bodyOffset := offset }
      else if target = k.footer then { p with footerOffset := offset }
      else p
  | _ => p

/-- A row with every optional field absent. -/
def emptyWatchItem : WatchItem :=
  { symbol := none, last := none, last_time := none, tag := none, pair := none,
    mark_price := none, bid := none, bid_size := none, ask := none,
    ask_size := none, vol24h := none, volume_quote := none,
    open_interest := none, open24h := none, high24h := none, low24h := none,
    last_size := none, funding_rate := none, funding_rate_prediction := none,
    suspended := none, index_price := none, post_only := none,
    change24h := none }

/-- A concrete sample row used to evaluate theorems with hypotheses. -/
def sampleItem : WatchItem :=
  { emptyWatchItem with
    symbol := some "PI_XBTUSD",
    last := some 100,
    last_time := some "2026-10-12" }

/-- A concrete state with one pending resize offset, used as evaluation input. -/
def sampleState : Krader :=
  { columns := [
      { kind := .Pair, width := 100, resize_offset := some 5 },
      { kind := .MarkPrice, width := 100, resize_offset := none }],
    watch_list := [sampleItem],
    header := 0, body := 1, footer := 2,
    resize_columns_enabled := true, footer_enabled := true,
    min_width_enabled := true }

/-- A concrete state with no pending resize offsets, used as evaluation input. -/
def quietState : Krader :=
  { columns := [
      { kind := .Pair, width := 100, resize_offset := none },
      { kind := .Last, width := 120, resize_offset := none }],
    watch_list := [sampleItem],
    header := 0, body := 1, footer := 2,
    resize_columns_enabled := true, footer_enabled := true,
    min_width_enabled := true }

/-- A pane state with all offsets at the origin, used as evaluation input. -/
def panesAtOrigin : PaneState :=
  { headerOffset := { x := 0, y := 0 },
    bodyOffset := { x := 0, y := 0 },
    footerOffset := { x := 0, y := 0 } }

/-!
Theorems about the claims.
-/

/-- Helper: the `Message::Resizing` branch of `update`, spelled out. -/
theorem update_resizing_eq (s : Krader) (index : Nat) (offset : ℚ) :
    Krader.update s (.Resizing index offset) =
      ((match s.columns[index]? with
        | some c =>
            { s with columns := s.columns.set index { c with resize_offset := some offset } }
        | none => s),
       []) := rfl

/-- C1 counterexample: a successful batch is stored exactly as fetched, so an
item whose optional price (`last`) and timestamp (`last_time`) fields are
absent stays absent after the success handler; the claim that every stored
item has price and last-update set fails. -/
theorem dataFetched_ok_item_fields_not_set :
    ¬ (∀ it ∈ (Krader.update quietState (.DataFetched (.ok [emptyWatchItem]))).1.watch_list,
        it.last.isSome ∧ it.last_time.isSome) := by decide

/-- C1 (amended): the success handler replaces the entire watch list with
exactly the N batch items, in batch order — no previous item survives — and
the items are stored exactly as fetched: their fields are whatever the batch
carries (the code's `WatchItem` has no error field and the handler rewrites no
field). -/
theorem dataFetched_ok_replaces_watch_list (s : Krader) (batch : List WatchItem) :
    (Krader.update s (.DataFetched (.ok batch))).1.watch_list = batch ∧
    (Krader.update s (.DataFetched (.ok batch))).1.watch_list.length = batch.length :=
  ⟨rfl, rfl⟩

/-- C2 counterexample: the failure handler leaves the state bit-identical (the
message is only printed to standard error) and the code's `WatchItem` has no
error field, so no reading of a stored item can equal the failure message for
every failure; the claim that every item's error field is set to the message
fails. -/
theorem dataFetched_err_no_error_field :
    ¬ ∃ errorOf : WatchItem → Option String,
        ∀ msg : String,
          ∀ it ∈ (Krader.update quietState (.DataFetched (.error msg))).1.watch_list,
            errorOf it = some msg := by
  rintro ⟨errorOf, hall⟩
  have hmem : sampleItem ∈ (Krader.update quietState (.DataFetched (.error "a"))).1.watch_list := by
    decide
  have hmem2 : sampleItem ∈ (Krader.update quietState (.DataFetched (.error "b"))).1.watch_list := by
    decide
  have h1 := hall "a" sampleItem hmem
  have h2 := hall "b" sampleItem hmem2
  rw [h1] at h2
  exact absurd h2 (by decide)

/-- C2 (amended): after a failed fetch batch the whole application state — the
watch list included, hence every item's price and timestamp — is exactly the
pre-call state; the failure message is only written to standard error, and the
update runs to completion. -/
theorem dataFetched_err_leaves_state_unchanged (s : Krader) (e : String) :
    Krader.update s (.DataFetched (.error e)) = (s, [Command.eprintln e]) := rfl

/-- C8: row order after a successful apply equals the fetched batch order:
`fetch_data` returns the response tickers unchanged and the success handler
stores them unchanged, so the stored row at every index is the response ticker
at that index (no re-sorting). -/
theorem rows_keep_batch_order (s : Krader) (resp : TickersResponse) (i : Nat) :
    (Krader.update s (.DataFetched (.ok (fetch_data resp)))).1.watch_list[i]? =
      resp.tickers[i]? := rfl

/-- C9: frame property: applying a fetch result (success or failure) leaves
every column descriptor and the three pane identities unchanged; conversely, a
scroll-sync event leaves the whole state unchanged, and resize-begin and
resize-commit leave the watch list unchanged. -/
theorem update_frame_conditions (s : Krader) :
    (∀ batch, (Krader.update s (.DataFetched (.ok batch))).1.columns = s.columns ∧
      (Krader.update s (.DataFetched (.ok batch))).1.header = s.header ∧
      (Krader.update s (.DataFetched (.ok batch))).1.body = s.body ∧
      (Krader.update s (.DataFetched (.ok batch))).1.footer = s.footer) ∧
    (∀ e, (Krader.update s (.DataFetched (.error e))).1.columns = s.columns ∧
      (Krader.update s (.DataFetched (.error e))).1.header = s.header ∧
      (Krader.update s (.DataFetched (.error e))).1.body = s.body ∧
      (Krader.update s (.DataFetched (.error e))).1.footer = s.footer) ∧
    (∀ offset, (Krader.update s (.SyncHeader offset)).1 = s) ∧
    (∀ index offset, (Krader.update s (.Resizing index offset)).1.watch_list = s.watch_list) ∧
    (Krader.update s .Resized).1.watch_list = s.watch_list := by
  refine ⟨fun batch => ⟨rfl, rfl, rfl, rfl⟩, fun e => ⟨rfl, rfl, rfl, rfl⟩,
    fun offset => rfl, fun index offset => ?_, rfl⟩
  rw [update_resizing_eq]
  cases hcase : s.columns[index]? with
  | none => rfl
  | some c => rfl

/-- C3: a single `Message::Resized` event commits all currently-pending resize
offsets in one atomic step: the column count is preserved, every column whose
pending offset is non-empty gets `width + offset` with the pending offset
cleared, and every column with no pending offset is unchanged. -/
theorem resized_commits_all_pending (s : Krader) (i : Nat) (c : WatchlistColumn)
    (h : s.columns[i]? = some c) :
    (Krader.update s .Resized).1.columns.length = s.columns.length ∧
    (∀ o, c.resize_offset = some o →
      (Krader.update s .Resized).1.columns[i]? =
        some { kind := c.kind, width := c.width + o, resize_offset := none }) ∧
    (c.resize_offset = none → (Krader.update s .Resized).1.columns[i]? = some c) := by
  have hcols : (Krader.update s .Resized).1.columns = s.columns.map fun col =>
      match col.resize_offset with
      | some offset => { col with width := col.width + offset, resize_offset := none }
      | none => col := rfl
  refine ⟨by rw [hcols, List.length_map], ?_, ?_⟩
  · intro o ho
    rw [hcols, List.getElem?_map _ s.columns i, h, Option.map_some', ho]
  · intro ho
    rw [hcols, List.getElem?_map _ s.columns i, h, Option.map_some', ho]

/-- C3 witness: evaluated on the concrete sample state, whose first column has
pending offset 5 and second column has none. -/
theorem resized_commits_all_pending_witness :
    sampleState.columns[0]? = some { kind := .Pair, width := 100, resize_offset := some 5 } ∧
    ((Krader.update sampleState .Resized).1.columns.length = sampleState.columns.length ∧
     (∀ o, (WatchlistColumn.mk .Pair 100 (some 5)).resize_offset = some o →
       (Krader.update sampleState .Resized).1.columns[0]? =
         some { kind := ColumnKind.Pair, width := 100 + o, resize_offset := none }) ∧
     ((WatchlistColumn.mk .Pair 100 (some 5)).resize_offset = none →
       (Krader.update sampleState .Resized).1.columns[0]? =
         some { kind := .Pair, width := 100, resize_offset := some 5 })) :=
  ⟨by decide, resized_commits_all_pending sampleState 0 ⟨.Pair, 100, some 5⟩ (by decide)⟩

/-- C7: resize-commit is idempotent when no resize is pending: with every
column's pending offset empty, one or two `Message::Resized` events leave the
state (in particular every column's width) unchanged. -/
theorem resized_noop_when_no_pending (s : Krader)
    (h : ∀ c ∈ s.columns, c.resize_offset = none) :
    (Krader.update s .Resized).1 = s ∧
    (Krader.update (Krader.update s .Resized).1 .Resized).1 = s := by
  have h1 : (Krader.update s .Resized).1 = s := by
    have hmap : (s.columns.map fun col =>
        match col.resize_offset with
        | some offset => { col with width := col.width + offset, resize_offset := none }
        | none => col) = s.columns := by
      conv_rhs => rw [← List.map_id s.columns]
      exact List.map_congr_left fun a ha => by rw [h a ha]; rfl
    show { s with columns := s.columns.map _ } = s
    rw [hmap]
  refine ⟨h1, ?_⟩
  rw [h1]
  exact h1

/-- C7 witness: evaluated on the concrete quiet state, where no column has a
pending resize offset. -/
theorem resized_noop_when_no_pending_witness :
    (∀ c ∈ quietState.columns, c.resize_offset = none) ∧
    ((Krader.update quietState .Resized).1 = quietState ∧
     (Krader.update (Krader.update quietState .Resized).1 .Resized).1 = quietState) :=
  ⟨by decide, resized_noop_when_no_pending quietState (by decide)⟩

/-- C10: a resize-begin event whose column index is out of range is a total
no-op: the state — columns and watch list included — is unchanged and no
command is emitted, for every delta value. -/
theorem resizing_out_of_range_noop (s : Krader) (index : Nat) (offset : ℚ)
    (h : s.columns.length ≤ index) :
    Krader.update s (.Resizing index offset) = (s, []) := by
  rw [update_resizing_eq, List.getElem?_eq_none h]

/-- C10 witness: evaluated on the concrete sample state (2 columns) at index 5. -/
theorem resizing_out_of_range_noop_witness :
    sampleState.columns.length ≤ 5 ∧
    Krader.update sampleState (.Resizing 5 (-3)) = (sampleState, []) :=
  ⟨by decide, resizing_out_of_range_noop sampleState 5 (-3) (by decide)⟩

/-- C4: a scroll-offset event on the body pane (`Message::SyncHeader`) is
mirrored, in the same update, to the header and footer panes: after the user
scroll puts the body pane at the carried offset and the two emitted
`scroll_to` commands are applied, all three pane offsets equal that offset,
for any offset value.  The pane ids are pairwise distinct by construction
(`scrollable::Id::unique()`), stated here as hypotheses. -/
theorem syncHeader_aligns_panes (s : Krader) (p : PaneState) (offset : AbsoluteOffset)
    (hfh : s.footer ≠ s.header) (hfb : s.footer ≠ s.body) :
    (Krader.update s (.SyncHeader offset)).2.foldl
        (applyCommand (Krader.update s (.SyncHeader offset)).1)
        { p with bodyOffset := offset } =
      { headerOffset := offset, bodyOffset := offset, footerOffset := offset } := by
  show applyCommand s
      (applyCommand s { p with bodyOffset := offset } (.scrollTo s.header offset))
      (.scrollTo s.footer offset) =
    { headerOffset := offset, bodyOffset := offset, footerOffset := offset }
  simp [applyCommand, hfh, hfb]

/-- C4 witness: evaluated on the concrete quiet state (pane ids 0, 1, 2) with
the panes initially at the origin and offset (7, 3). -/
theorem syncHeader_aligns_panes_witness :
    (quietState.footer ≠ quietState.header ∧ quietState.footer ≠ quietState.body) ∧
    (Krader.update quietState (.SyncHeader { x := 7, y := 3 })).2.foldl
        (applyCommand (Krader.update quietState (.SyncHeader { x := 7, y := 3 })).1)
        { panesAtOrigin with bodyOffset := { x := 7, y := 3 } } =
      { headerOffset := { x := 7, y := 3 },
        bodyOffset := { x := 7, y := 3 },
        footerOffset := { x := 7, y := 3 } } :=
  ⟨⟨by decide, by decide⟩,
   syncHeader_aligns_panes quietState panesAtOrigin { x := 7, y := 3 }
     (by decide) (by decide)⟩

/-- C5 counterexample: from the initial state of `Krader::new`, resize-begin
on column 0 with delta -200 followed by resize-commit drives that column's
width to -100, which is negative: widths are not kept non-negative for every
delta. -/
theorem resize_drives_width_negative :
    ((Krader.update (Krader.update Krader.new.1 (.Resizing 0 (-200))).1
        .Resized).1.columns.map WatchlistColumn.width).head? = some (-100) ∧
    ¬ (0 : ℚ) ≤ -100 := by
  have hpipe : ((Krader.update (Krader.update Krader.new.1 (.Resizing 0 (-200))).1
      .Resized).1.columns.map WatchlistColumn.width).head? = some ((100 : ℚ) + (-200)) := rfl
  refine ⟨?_, by norm_num⟩
  rw [hpipe]
  norm_num

/-- C5 (amended): every column constructed by `WatchlistColumn::new` has width
100, hence non-negative; resize-begin never changes a width; and resize-commit
keeps every width non-negative provided every pending offset is at least the
negation of its column's width — the code applies offsets unclamped, so an
unrestricted negative delta can drive a width negative. -/
theorem widths_nonneg_under_bounded_offsets (s : Krader)
    (h : ∀ c ∈ s.columns, 0 ≤ c.width ∧
      ∀ o, c.resize_offset = some o → 0 ≤ c.width + o) :
    (∀ k, (WatchlistColumn.new k).width = 100) ∧
    (∀ c ∈ (Krader.update s .Resized).1.columns, 0 ≤ c.width) ∧
    (∀ index offset, ∀ c ∈ (Krader.update s (.Resizing index offset)).1.columns,
      0 ≤ c.width) := by
  refine ⟨fun k => by cases k <;> rfl, ?_, ?_⟩
  · intro c hc
    have hcols : (Krader.update s .Resized).1.columns = s.columns.map fun col =>
        match col.resize_offset with
        | some offset => { col with width := col.width + offset, resize_offset := none }
        | none => col := rfl
    rw [hcols] at hc
    rcases List.mem_map.1 hc with ⟨a, ha, rfl⟩
    rcases h a ha with ⟨hw, ho⟩
    cases hro : a.resize_offset with
    | none => exact hw
    | some o => exact ho o hro
  · intro index offset c hc
    cases hcase : s.columns[index]? with
    | none =>
        rw [update_resizing_eq, hcase] at hc
        replace hc : c ∈ s.columns := hc
        exact (h c hc).1
    | some c₀ =>
        rw [update_resizing_eq, hcase] at hc
        replace hc : c ∈ s.columns.set index { c₀ with resize_offset := some offset } := hc
        rcases List.mem_or_eq_of_mem_set hc with hmem | rfl
        · exact (h c hmem).1
        · exact (h c₀ (List.getElem?_mem hcase)).1

/-- C5 witness: evaluated on the concrete sample state, whose pending offset 5
satisfies the bound. -/
theorem widths_nonneg_under_bounded_offsets_witness :
    (∀ c ∈ sampleState.columns, 0 ≤ c.width ∧
      ∀ o, c.resize_offset = some o → 0 ≤ c.width + o) ∧
    ((∀ k, (WatchlistColumn.new k).width = 100) ∧
     (∀ c ∈ (Krader.update sampleState .Resized).1.columns, 0 ≤ c.width) ∧
     (∀ index offset, ∀ c ∈ (Krader.update sampleState (.Resizing index offset)).1.columns,
       0 ≤ c.width)) := by
  have hbound : ∀ c ∈ sampleState.columns, 0 ≤ c.width ∧
      ∀ o, c.resize_offset = some o → 0 ≤ c.width + o := by
    intro c hc
    simp only [sampleState, List.mem_cons, List.not_mem_nil, or_false] at hc
    rcases hc with rfl | rfl
    · refine ⟨by norm_num, fun o ho => ?_⟩
      obtain rfl : (5 : ℚ) = o := Option.some.inj ho
      norm_num
    · exact ⟨by norm_num, fun o ho => by simp at ho⟩
  exact ⟨hbound, widths_nonneg_under_bounded_offsets sampleState hbound⟩

/-- C6 counterexample: with the `last` field absent, the `Last` column renders
the numeric default `"0"` (via `unwrap_or_default`), not the `"N/A"`
placeholder token used by the other columns: not every absent field renders
the placeholder. -/
theorem cell_absent_last_renders_zero :
    WatchlistColumn.cell .Last emptyWatchItem = "0" ∧
    WatchlistColumn.cell .Last emptyWatchItem ≠ "N/A" ∧
    WatchlistColumn.cell .Pair emptyWatchItem = "N/A" := by decide

/-- C6 (amended): cell extraction is a pure function of (column kind, row) —
`WatchlistColumn.cell` — and on a row whose fields are all absent, every kind
renders the `"N/A"` placeholder except the five kinds rendered through
`unwrap_or_default` (`Last`, `VolumeQuote`, `OpenInterest`, `FundingRate`,
`FundingRatePrediction`), which render the default value `"0"` instead. -/
theorem cell_absent_field_rendering (kind : ColumnKind) :
    WatchlistColumn.cell kind emptyWatchItem =
      match kind with
      | .Last => "0"
      | .VolumeQuote => "0"
      | .OpenInterest => "0"
      | .FundingRate => "0"
      | .FundingRatePrediction => "0"
      | _ => "N/A" := by
  cases kind <;> rfl
